import Mathlib

/-!
Verification of the mission-control registry (`src/mission_control.py`).

Shallow embedding of the `MissionControl` class: missions are kept in an
insertion-ordered association list (mirroring a Python `dict`), operations are
pure functions returning `Except MCError` (a raised `ValueError` becomes an
`error`), and the wall-clock timestamps produced by `datetime.now().isoformat()`
are modelled as an explicit `now : String` argument to each mutating operation.
Numeric telemetry fields (`float` in Python) are modelled as `Int`: the code
performs no arithmetic on them, only stores and reports them.
-/

namespace MissionControlSim

/-- The `MissionStatus` enum of the source. -/
inductive MissionStatus where
  | planned
  | active
  | completed
  | aborted
  | failed
deriving DecidableEq, Repr

/-- The `CommandStatus` enum of the source. -/
inductive CommandStatus where
  | pending
  | executing
  | completed
  | failed
deriving DecidableEq, Repr

/-- The `Telemetry` dataclass of the source. -/
structure Telemetry where
  timestamp : String
  altitude : Int
  velocity : Int
  fuel_level : Int
  system_health : String
deriving DecidableEq, Repr

/-- The `Command` dataclass of the source.  `parameters` is a string-keyed map
(the source's `Dict[str, Any]`); only string values are ever read from it. -/
structure Command where
  id : String
  type : String
  parameters : List (String × String)
  status : CommandStatus
  timestamp : String
  result : Option String
deriving DecidableEq, Repr

/-- The `Mission` dataclass of the source, after `__post_init__` has replaced the
`None` defaults by empty lists. -/
structure Mission where
  id : String
  name : String
  status : MissionStatus
  start_time : Option String
  end_time : Option String
  objectives : List String
  telemetry : List Telemetry
  commands : List Command
deriving DecidableEq, Repr

/-- State of a `MissionControl` instance: the `missions` dict (an
insertion-ordered association list) and the `active_mission` pointer. -/
structure MissionControl where
  missions : List (String × Mission)
  active_mission : Option String
deriving DecidableEq, Repr

/-- The `ValueError`s the source raises, one constructor per raise site. -/
inductive MCError where
  | missionNotFound (mission_id : String)
  | missionExists (mission_id : String)
  | commandNotFound (command_id : String)
  | inactiveMission (mission_id : String)
deriving DecidableEq, Repr

/-- Python dict lookup `self.missions[mission_id]` / membership test. -/
def lookupMission : List (String × Mission) → String → Option Mission
  | [], _ => none
  | (k, v) :: rest, mid => if k = mid then some v else lookupMission rest mid

/-- In-place mutation of the mission stored under a key (Python mutates the
`Mission` object held by the dict). -/
def setMission : List (String × Mission) → String → Mission → List (String × Mission)
  | [], _, _ => []
  | (k, v) :: rest, mid, m =>
    if k = mid then (k, m) :: rest else (k, v) :: setMission rest mid m

/-- Python `parameters.get(key, default)`. -/
def paramGet : List (String × String) → String → String → String
  | [], _, d => d
  | (k, v) :: rest, key, d => if k = key then v else paramGet rest key d

/-- Little-endian base-10 digits, by fuel-bounded recursion (any fuel at
least `n` yields the digits of `n`; see `decDigitsAux_eq_digits`). -/
def decDigitsAux : Nat → Nat → List Nat
  | 0, _ => []
  | fuel + 1, n => if n = 0 then [] else n % 10 :: decDigitsAux fuel (n / 10)

/-- Little-endian base-10 digits of `n`. -/
def decDigits (n : Nat) : List Nat := decDigitsAux n n

/-- Decimal representation of a natural number (Python's `%d`). -/
def decRepr (n : Nat) : String :=
  if n = 0 then "0" else ⟨((decDigits n).reverse.map Nat.digitChar)⟩

/-- Python's `%04d` format: zero-pad the decimal representation to width 4. -/
def pad4 (n : Nat) : String :=
  ⟨List.replicate (4 - (decRepr n).length) '0'⟩ ++ decRepr n

/-- The source's command-id format `f"cmd_{n:04d}"`. -/
def cmdIdFor (n : Nat) : String := "cmd_" ++ pad4 n

/-- Decimal value of a digit character (inverse of `Nat.digitChar` on 0–9). -/
def charDigit (c : Char) : Nat := c.toNat - 48

/-- Value of a big-endian digit-character list. -/
def decOfChars (l : List Char) : Nat := Nat.ofDigits 10 ((l.map charDigit).reverse)

/-- Numeric sequence number encoded in a command id (drops the `cmd_` tag). -/
def cmdNum (s : String) : Nat := decOfChars (s.data.drop 4)

/-- A fresh `MissionControl()` instance. -/
def initMC : MissionControl := { missions := [], active_mission := none }

/-- Source `create_mission`: fails if the id exists, else inserts a fresh `PLANNED`
mission and returns it. -/
def create_mission (mc : MissionControl) (mission_id name : String)
    (objectives : List String) : Except MCError (Mission × MissionControl) :=
  match lookupMission mc.missions mission_id with
  | some _ => .error (.missionExists mission_id)
  | none =>
    let mission : Mission :=
      { id := mission_id, name := name, status := .planned,
        start_time := none, end_time := none, objectives := objectives,
        telemetry := [], commands := [] }
    .ok (mission, { mc with missions := mc.missions ++ [(mission_id, mission)] })

/-- Source `start_mission`: `False` unless `PLANNED`; else `ACTIVE`, stamp
`start_time`, point `active_mission` at it. -/
def start_mission (mc : MissionControl) (mission_id now : String) :
    Except MCError (Bool × MissionControl) :=
  match lookupMission mc.missions mission_id with
  | none => .error (.missionNotFound mission_id)
  | some mission =>
    if mission.status ≠ .planned then .ok (false, mc)
    else
      let m2 : Mission := { mission with status := .active, start_time := some now }
      .ok (true, { missions := setMission mc.missions mission_id m2,
                   active_mission := some mission_id })

/-- Source `abort_mission`: `False` unless `ACTIVE`; else `ABORTED`, stamp `end_time`,
clear the pointer if it referenced this mission. -/
def abort_mission (mc : MissionControl) (mission_id now : String) :
    Except MCError (Bool × MissionControl) :=
  match lookupMission mc.missions mission_id with
  | none => .error (.missionNotFound mission_id)
  | some mission =>
    if mission.status ≠ .active then .ok (false, mc)
    else
      let m2 : Mission := { mission with status := .aborted, end_time := some now }
      .ok (true, { missions := setMission mc.missions mission_id m2,
                   active_mission :=
                     if mc.active_mission = some mission_id then none
                     else mc.active_mission })

/-- Source `complete_mission`: `False` unless `ACTIVE`; else `COMPLETED`, stamp
`end_time`, clear the pointer if it referenced this mission. -/
def complete_mission (mc : MissionControl) (mission_id now : String) :
    Except MCError (Bool × MissionControl) :=
  match lookupMission mc.missions mission_id with
  | none => .error (.missionNotFound mission_id)
  | some mission =>
    if mission.status ≠ .active then .ok (false, mc)
    else
      let m2 : Mission := { mission with status := .completed, end_time := some now }
      .ok (true, { missions := setMission mc.missions mission_id m2,
                   active_mission :=
                     if mc.active_mission = some mission_id then none
                     else mc.active_mission })

/-- Source `send_command`: raises unless the mission is `ACTIVE`; else appends a
`PENDING` command with id `cmd_{len+1:04d}` and returns that id. -/
def send_command (mc : MissionControl) (mission_id command_type : String)
    (parameters : List (String × String)) (now : String) :
    Except MCError (String × MissionControl) :=
  match lookupMission mc.missions mission_id with
  | none => .error (.missionNotFound mission_id)
  | some mission =>
    if mission.status ≠ .active then .error (.inactiveMission mission_id)
    else
      let command_id := cmdIdFor (mission.commands.length + 1)
      let command : Command :=
        { id := command_id, type := command_type, parameters := parameters,
          status := .pending, timestamp := now, result := none }
      let m2 : Mission := { mission with commands := mission.commands ++ [command] }
      .ok (command_id, { mc with missions := setMission mc.missions mission_id m2 })

/-- The `for cmd in mission.commands: if cmd.id == command_id` search loop. -/
def findCommand : List Command → String → Option Command
  | [], _ => none
  | c :: rest, cid => if c.id = cid then some c else findCommand rest cid

/-- The dispatch-by-type block of `execute_command`: result string and final
status for a command leaving the transient `EXECUTING` state. -/
def resolveCommand (c : Command) : Command :=
  if c.type = "ignition" then
    { c with result := some "Engine ignited successfully", status := .completed }
  else if c.type = "adjust_course" then
    { c with
      result := some ("Course adjusted to " ++ paramGet c.parameters "heading" "unknown"),
      status := .completed }
  else if c.type = "collect_sample" then
    { c with
      result := some ("Sample collected at " ++ paramGet c.parameters "location" "unknown"),
      status := .completed }
  else
    { c with result := some ("Unknown command type: " ++ c.type), status := .failed }

/-- In-place mutation of the first command with the given id. -/
def updateCommand : List Command → String → Command → List Command
  | [], _, _ => []
  | c :: rest, cid, c2 => if c.id = cid then c2 :: rest else c :: updateCommand rest cid c2

/-- Source `execute_command`: `False` unless the command is `PENDING`; else resolve it
by type and return whether it completed. -/
def execute_command (mc : MissionControl) (mission_id command_id : String) :
    Except MCError (Bool × MissionControl) :=
  match lookupMission mc.missions mission_id with
  | none => .error (.missionNotFound mission_id)
  | some mission =>
    match findCommand mission.commands command_id with
    | none => .error (.commandNotFound command_id)
    | some command =>
      if command.status ≠ .pending then .ok (false, mc)
      else
        let c2 := resolveCommand command
        let m2 : Mission :=
          { mission with commands := updateCommand mission.commands command_id c2 }
        .ok (decide (c2.status = .completed),
             { mc with missions := setMission mc.missions mission_id m2 })

/-- Source `add_telemetry`: appends a record regardless of mission status. -/
def add_telemetry (mc : MissionControl) (mission_id : String)
    (altitude velocity fuel_level : Int) (system_health now : String) :
    Except MCError MissionControl :=
  match lookupMission mc.missions mission_id with
  | none => .error (.missionNotFound mission_id)
  | some mission =>
    let t : Telemetry :=
      { timestamp := now, altitude := altitude, velocity := velocity,
        fuel_level := fuel_level, system_health := system_health }
    let m2 : Mission := { mission with telemetry := mission.telemetry ++ [t] }
    .ok { mc with missions := setMission mc.missions mission_id m2 }

/-- Shape of the dict returned by `get_mission_status`. -/
structure StatusReport where
  mission : Mission
  active_commands : Nat
  completed_commands : Nat
  failed_commands : Nat
  latest_telemetry : Option Telemetry
deriving DecidableEq, Repr

/-- Source `get_mission_status`: counts by command status plus the last telemetry. -/
def get_mission_status (mc : MissionControl) (mission_id : String) :
    Except MCError StatusReport :=
  match lookupMission mc.missions mission_id with
  | none => .error (.missionNotFound mission_id)
  | some mission =>
    .ok { mission := mission,
          active_commands := (mission.commands.filter
            (fun c => decide (c.status = .pending) || decide (c.status = .executing))).length,
          completed_commands :=
            (mission.commands.filter (fun c => decide (c.status = .completed))).length,
          failed_commands :=
            (mission.commands.filter (fun c => decide (c.status = .failed))).length,
          latest_telemetry := mission.telemetry.getLast? }

/-- One public mutating operation of the registry, with any caller-chosen
arguments and timestamp, applied successfully. -/
inductive Step : MissionControl → MissionControl → Prop where
  | create (mc : MissionControl) (i n : String) (o : List String) (m : Mission)
      (mc' : MissionControl) :
      create_mission mc i n o = .ok (m, mc') → Step mc mc'
  | start (mc : MissionControl) (i now : String) (b : Bool) (mc' : MissionControl) :
      start_mission mc i now = .ok (b, mc') → Step mc mc'
  | abort (mc : MissionControl) (i now : String) (b : Bool) (mc' : MissionControl) :
      abort_mission mc i now = .ok (b, mc') → Step mc mc'
  | complete (mc : MissionControl) (i now : String) (b : Bool) (mc' : MissionControl) :
      complete_mission mc i now = .ok (b, mc') → Step mc mc'
  | send (mc : MissionControl) (i t : String) (ps : List (String × String)) (now : String)
      (cid : String) (mc' : MissionControl) :
      send_command mc i t ps now = .ok (cid, mc') → Step mc mc'
  | execute (mc : MissionControl) (i cid : String) (b : Bool) (mc' : MissionControl) :
      execute_command mc i cid = .ok (b, mc') → Step mc mc'
  | telemetry (mc : MissionControl) (i : String) (alt vel fuel : Int) (health now : String)
      (mc' : MissionControl) :
      add_telemetry mc i alt vel fuel health now = .ok mc' → Step mc mc'

/-- States of a `MissionControl` instance reachable through its public API.
An operation that raises leaves the state unchanged (every raise in the source
happens before any mutation), so error results need no step. -/
inductive Reachable : MissionControl → Prop where
  | init : Reachable initMC
  | step (mc mc' : MissionControl) : Reachable mc → Step mc mc' → Reachable mc'

/-- State extractor for boolean-returning transitions (used only to name the
intermediate states of concrete test runs). -/
def stateOf (r : Except MCError (Bool × MissionControl)) : MissionControl :=
  match r with
  | .ok (_, mc) => mc
  | .error _ => initMC

/-- State extractor for `create_mission` results. -/
def stateOfCreate (r : Except MCError (Mission × MissionControl)) : MissionControl :=
  match r with
  | .ok (_, mc) => mc
  | .error _ => initMC

/-- State extractor for `send_command` results. -/
def stateOfSend (r : Except MCError (String × MissionControl)) : MissionControl :=
  match r with
  | .ok (_, mc) => mc
  | .error _ => initMC

/-- Placeholder mission for total lookups in concrete statements. -/
def noMission : Mission :=
  { id := "", name := "", status := .planned, start_time := none, end_time := none,
    objectives := [], telemetry := [], commands := [] }

/-- Placeholder command for total lookups in concrete statements. -/
def noCommand : Command :=
  { id := "", type := "", parameters := [], status := .pending, timestamp := "",
    result := none }

/-- The mission stored under an id (placeholder if absent). -/
def missionAt (mc : MissionControl) (mid : String) : Mission :=
  (lookupMission mc.missions mid).getD noMission

/-- The command stored under an id (placeholder if absent). -/
def commandAt (m : Mission) (cid : String) : Command :=
  (findCommand m.commands cid).getD noCommand

/-- The spec's end-to-end example: create `"M1"`, start it, send `"ignition"`,
execute the returned command id, add telemetry `(100, 10, 90, "nominal")`,
complete the mission, then query its status. -/
def runDemo : Except MCError StatusReport := do
  let (_m, mc1) ← create_mission initMC "M1" "Mission One" []
  let (_b1, mc2) ← start_mission mc1 "M1" "t1"
  let (cid, mc3) ← send_command mc2 "M1" "ignition" [] "t2"
  let (_b2, mc4) ← execute_command mc3 "M1" cid
  let mc5 ← add_telemetry mc4 "M1" 100 10 90 "nominal" "t3"
  let (_b3, mc6) ← complete_mission mc5 "M1" "t4"
  get_mission_status mc6 "M1"

/-- Demo run, state after `create_mission "M1"`. -/
def demoState1 : MissionControl := stateOfCreate (create_mission initMC "M1" "Mission One" [])

/-- Demo run, state after `start_mission "M1"`. -/
def demoState2 : MissionControl := stateOf (start_mission demoState1 "M1" "t1")

/-- Demo run, state after `send_command "M1" "ignition"`. -/
def demoState3 : MissionControl := stateOfSend (send_command demoState2 "M1" "ignition" [] "t2")

/-- Demo run, state after `execute_command "M1" "cmd_0001"`. -/
def demoState4 : MissionControl := stateOf (execute_command demoState3 "M1" "cmd_0001")

/-- Demo run: the mission record of `"M1"` after the ignition command is sent. -/
def demoMission3 : Mission := missionAt demoState3 "M1"

/-- Demo run: the pending ignition command of `"M1"`. -/
def demoCmd3 : Command := commandAt demoMission3 "cmd_0001"

/-- Demo run: the mission record of `"M1"` after execution. -/
def demoMission4 : Mission := missionAt demoState4 "M1"

/-- Demo run: the executed ignition command of `"M1"`. -/
def demoCmd4 : Command := commandAt demoMission4 "cmd_0001"

/-- The telemetry record produced by the demo run. -/
def demoTelemetryRec : Telemetry :=
  { timestamp := "t3", altitude := 100, velocity := 10, fuel_level := 90,
    system_health := "nominal" }

/-- The status report produced by the demo run (`runDemo`). -/
def demoReport : StatusReport :=
  { mission :=
      { id := "M1", name := "Mission One", status := .completed,
        start_time := some "t1", end_time := some "t4", objectives := [],
        telemetry := [demoTelemetryRec],
        commands := [{ id := "cmd_0001", type := "ignition", parameters := [],
                       status := .completed, timestamp := "t2",
                       result := some "Engine ignited successfully" }] },
    active_commands := 0, completed_commands := 1, failed_commands := 0,
    latest_telemetry := some demoTelemetryRec }

/-- Two-mission run: create `"A"`. -/
def dualState1 : MissionControl := stateOfCreate (create_mission initMC "A" "Alpha" [])

/-- Two-mission run: start `"A"`. -/
def dualState2 : MissionControl := stateOf (start_mission dualState1 "A" "tA")

/-- Two-mission run: create `"B"` while `"A"` is active. -/
def dualState3 : MissionControl := stateOfCreate (create_mission dualState2 "B" "Beta" [])

/-- Two-mission run: start `"B"` while `"A"` is still active. -/
def dualState4 : MissionControl := stateOf (start_mission dualState3 "B" "tB")

/-- Two-mission run: abort the earlier-active `"A"` after `"B"` took over. -/
def dualAborted : MissionControl := stateOf (abort_mission dualState4 "A" "tC")

/-- Two-mission run: complete the earlier-active `"A"` after `"B"` took over. -/
def dualCompleted : MissionControl := stateOf (complete_mission dualState4 "A" "tC")

/-- Invariant of every reachable registry state: mission keys are unique, each
mission's command ids are exactly `cmd_0001 … cmd_000k` in order, and no
stored command is in the transient `Executing` state. -/
def RegistryInv (mc : MissionControl) : Prop :=
  (mc.missions.map Prod.fst).Nodup ∧
  ∀ p ∈ mc.missions,
    p.2.commands.map Command.id
      = (List.range p.2.commands.length).map (fun i => cmdIdFor (i + 1)) ∧
    ∀ c ∈ p.2.commands, c.status ≠ CommandStatus.executing

/-! The command-id format: decoding and injectivity -/

theorem decDigitsAux_eq_digits : ∀ fuel n, n ≤ fuel → decDigitsAux fuel n = Nat.digits 10 n := by
  intro fuel
  induction fuel with
  | zero => intro n hn; interval_cases n; simp [decDigitsAux]
  | succ f ih =>
    intro n hn
    by_cases h0 : n = 0
    · simp [decDigitsAux, h0]
    · rw [decDigitsAux, if_neg h0, Nat.digits_def' (by norm_num) (Nat.pos_of_ne_zero h0),
        ih (n / 10) ?_]
      have : n / 10 < n := Nat.div_lt_self (Nat.pos_of_ne_zero h0) (by norm_num)
      omega

theorem decDigits_eq_digits (n : Nat) : decDigits n = Nat.digits 10 n :=
  decDigitsAux_eq_digits n n le_rfl

theorem charDigit_digitChar (d : Nat) (hd : d < 10) : charDigit (Nat.digitChar d) = d := by
  interval_cases d <;> decide

theorem ofDigits_replicate_zero (k : Nat) : Nat.ofDigits 10 (List.replicate k 0) = 0 := by
  induction k with
  | zero => simp
  | succ j ih => simp [List.replicate_succ, Nat.ofDigits_cons, ih]

theorem data_append (s t : String) : (s ++ t).data = s.data ++ t.data := by
  cases s; cases t; rfl

theorem cmdNum_cmdIdFor (n : Nat) : cmdNum (cmdIdFor n) = n := by
  have hdata : (cmdIdFor n).data.drop 4 = (pad4 n).data := by
    rw [cmdIdFor, data_append]
    have h4 : ("cmd_".data).length = 4 := rfl
    rw [← h4]
    exact List.drop_left ..
  rw [cmdNum, hdata, pad4, data_append]
  have hrep : (String.mk (List.replicate (4 - (decRepr n).length) '0')).data
      = List.replicate (4 - (decRepr n).length) '0' := rfl
  rw [hrep, decOfChars, List.map_append, List.reverse_append, List.map_replicate,
    List.reverse_replicate]
  have hzero : charDigit '0' = 0 := rfl
  rw [hzero]
  by_cases h0 : n = 0
  · subst h0
    simp [decRepr, Nat.ofDigits_cons, ofDigits_replicate_zero, charDigit]
  · have hdd : (decRepr n).data = (Nat.digits 10 n).reverse.map Nat.digitChar := by
      rw [decRepr, if_neg h0, decDigits_eq_digits]
    rw [hdd, List.map_map]
    have hmap : (Nat.digits 10 n).reverse.map (charDigit ∘ Nat.digitChar)
        = (Nat.digits 10 n).reverse := by
      conv_rhs => rw [← List.map_id ((Nat.digits 10 n).reverse)]
      apply List.map_congr_left
      intro d hd
      exact charDigit_digitChar d (Nat.digits_lt_base (by norm_num) (List.mem_reverse.mp hd))
    rw [hmap, List.reverse_reverse, Nat.ofDigits_append, ofDigits_replicate_zero,
      Nat.ofDigits_digits]
    ring

theorem cmdIdFor_injective : Function.Injective cmdIdFor :=
  Function.LeftInverse.injective cmdNum_cmdIdFor

/-! Association-list and command-list lemmas -/

theorem lookupMission_mem {l : List (String × Mission)} {mid : String} {v : Mission}
    (h : lookupMission l mid = some v) : (mid, v) ∈ l := by
  induction l with
  | nil => simp [lookupMission] at h
  | cons p rest ih =>
    obtain ⟨k, w⟩ := p
    rw [lookupMission] at h
    by_cases hk : k = mid
    · rw [if_pos hk] at h
      injection h with h
      subst hk
      subst h
      exact List.mem_cons_self _ _
    · rw [if_neg hk] at h
      exact List.mem_cons_of_mem _ (ih h)

theorem lookupMission_none_not_mem {l : List (String × Mission)} {mid : String}
    (h : lookupMission l mid = none) : mid ∉ l.map Prod.fst := by
  induction l with
  | nil => simp
  | cons p rest ih =>
    obtain ⟨k, w⟩ := p
    rw [lookupMission] at h
    by_cases hk : k = mid
    · rw [if_pos hk] at h; exact absurd h (by simp)
    · rw [if_neg hk] at h
      simp only [List.map_cons, List.mem_cons]
      rintro (h1 | h1)
      · exact hk h1.symm
      · exact ih h h1

theorem lookupMission_of_mem_nodup {l : List (String × Mission)} {mid : String} {v : Mission}
    (hmem : (mid, v) ∈ l) (hnd : (l.map Prod.fst).Nodup) : lookupMission l mid = some v := by
  induction l with
  | nil => simp at hmem
  | cons p rest ih =>
    obtain ⟨k, w⟩ := p
    simp only [List.map_cons, List.nodup_cons] at hnd
    rcases List.mem_cons.mp hmem with h1 | h1
    · injection h1 with h1a h1b
      subst h1a; subst h1b
      simp [lookupMission]
    · rw [lookupMission]
      by_cases hk : k = mid
      · subst hk
        exact absurd (List.mem_map_of_mem Prod.fst h1) hnd.1
      · rw [if_neg hk]
        exact ih h1 hnd.2

theorem mem_setMission {l : List (String × Mission)} {mid : String} {m : Mission}
    {q : String × Mission} (h : q ∈ setMission l mid m) : q ∈ l ∨ q = (mid, m) := by
  induction l with
  | nil => simp [setMission] at h
  | cons p rest ih =>
    obtain ⟨k, w⟩ := p
    rw [setMission] at h
    by_cases hk : k = mid
    · rw [if_pos hk] at h
      rcases List.mem_cons.mp h with h1 | h1
      · right; rw [h1, hk]
      · left; exact List.mem_cons_of_mem _ h1
    · rw [if_neg hk] at h
      rcases List.mem_cons.mp h with h1 | h1
      · left; exact h1 ▸ List.mem_cons_self _ _
      · rcases ih h1 with h2 | h2
        · left; exact List.mem_cons_of_mem _ h2
        · right; exact h2

theorem setMission_map_fst (l : List (String × Mission)) (mid : String) (m : Mission) :
    (setMission l mid m).map Prod.fst = l.map Prod.fst := by
  induction l with
  | nil => rfl
  | cons p rest ih =>
    obtain ⟨k, w⟩ := p
    rw [setMission]
    by_cases hk : k = mid
    · rw [if_pos hk]; rfl
    · rw [if_neg hk]
      simp [ih]

theorem lookupMission_setMission_self {l : List (String × Mission)} {mid : String}
    {v : Mission} (m : Mission) (h : lookupMission l mid = some v) :
    lookupMission (setMission l mid m) mid = some m := by
  induction l with
  | nil => simp [lookupMission] at h
  | cons p rest ih =>
    obtain ⟨k, w⟩ := p
    rw [lookupMission] at h
    rw [setMission]
    by_cases hk : k = mid
    · rw [if_pos hk, lookupMission, if_pos hk]
    · rw [if_neg hk] at h
      rw [if_neg hk, lookupMission, if_neg hk]
      exact ih h

theorem lookupMission_append_right {l : List (String × Mission)} {mid : String}
    (h : lookupMission l mid = none) (v : Mission) :
    lookupMission (l ++ [(mid, v)]) mid = some v := by
  induction l with
  | nil => simp [lookupMission]
  | cons p rest ih =>
    obtain ⟨k, w⟩ := p
    rw [lookupMission] at h
    by_cases hk : k = mid
    · rw [if_pos hk] at h; exact absurd h (by simp)
    · rw [if_neg hk] at h
      rw [List.cons_append, lookupMission, if_neg hk]
      exact ih h

theorem findCommand_id {cmds : List Command} {cid : String} {c : Command}
    (h : findCommand cmds cid = some c) : c.id = cid := by
  induction cmds with
  | nil => simp [findCommand] at h
  | cons d rest ih =>
    rw [findCommand] at h
    by_cases hd : d.id = cid
    · rw [if_pos hd] at h
      injection h with h
      exact h ▸ hd
    · rw [if_neg hd] at h
      exact ih h

theorem findCommand_updateCommand_self {cmds : List Command} {cid : String} {c : Command}
    (c2 : Command) (h : findCommand cmds cid = some c) (h2 : c2.id = cid) :
    findCommand (updateCommand cmds cid c2) cid = some c2 := by
  induction cmds with
  | nil => simp [findCommand] at h
  | cons d rest ih =>
    rw [findCommand] at h
    rw [updateCommand]
    by_cases hd : d.id = cid
    · rw [if_pos hd, findCommand, if_pos h2]
    · rw [if_neg hd] at h
      rw [if_neg hd, findCommand, if_neg hd]
      exact ih h

theorem updateCommand_map_id {cmds : List Command} {cid : String} {c2 : Command}
    (h2 : c2.id = cid) :
    (updateCommand cmds cid c2).map Command.id = cmds.map Command.id := by
  induction cmds with
  | nil => rfl
  | cons d rest ih =>
    rw [updateCommand]
    by_cases hd : d.id = cid
    · rw [if_pos hd]
      simp [h2, hd]
    · rw [if_neg hd]
      simp [ih]

theorem mem_updateCommand {cmds : List Command} {cid : String} {c2 c : Command}
    (h : c ∈ updateCommand cmds cid c2) : c ∈ cmds ∨ c = c2 := by
  induction cmds with
  | nil => simp [updateCommand] at h
  | cons d rest ih =>
    rw [updateCommand] at h
    by_cases hd : d.id = cid
    · rw [if_pos hd] at h
      rcases List.mem_cons.mp h with h1 | h1
      · right; exact h1
      · left; exact List.mem_cons_of_mem _ h1
    · rw [if_neg hd] at h
      rcases List.mem_cons.mp h with h1 | h1
      · left; exact h1 ▸ List.mem_cons_self _ _
      · rcases ih h1 with h2 | h2
        · left; exact List.mem_cons_of_mem _ h2
        · right; exact h2

theorem resolveCommand_id (c : Command) : (resolveCommand c).id = c.id := by
  unfold resolveCommand
  split_ifs <;> rfl

theorem resolveCommand_status (c : Command) :
    (resolveCommand c).status = CommandStatus.completed ∨
    (resolveCommand c).status = CommandStatus.failed := by
  unfold resolveCommand
  split_ifs <;> simp

/-! Claim theorems -/

/-- C6: `create` fails with DuplicateKey for every id already present (so a
second `create` with the same id always fails), and for an absent id it
succeeds with a `Planned` mission having empty telemetry and command lists. -/
theorem create_mission_spec (mc : MissionControl) (mid name : String) (objs : List String) :
    (∀ m, lookupMission mc.missions mid = some m →
      create_mission mc mid name objs = .error (.missionExists mid)) ∧
    (lookupMission mc.missions mid = none →
      ∃ mission mc', create_mission mc mid name objs = .ok (mission, mc') ∧
        mission.status = .planned ∧ mission.telemetry = [] ∧ mission.commands = [] ∧
        lookupMission mc'.missions mid = some mission ∧
        ∀ name2 objs2, create_mission mc' mid name2 objs2 = .error (.missionExists mid)) := by
  constructor
  · intro m hm
    simp [create_mission, hm]
  · intro hnone
    have hlook := lookupMission_append_right hnone
      { id := mid, name := name, status := .planned, start_time := none,
        end_time := none, objectives := objs, telemetry := [], commands := [] }
    refine ⟨{ id := mid, name := name, status := .planned, start_time := none,
              end_time := none, objectives := objs, telemetry := [],
              commands := [] },
      ⟨mc.missions ++ [(mid,
          { id := mid, name := name, status := .planned, start_time := none,
            end_time := none, objectives := objs, telemetry := [],
            commands := [] })],
        mc.active_mission⟩, ?_, rfl, rfl, rfl, hlook, ?_⟩
    · simp [create_mission, hnone]
    · intro name2 objs2
      simp [create_mission, hlook]

/-- C6 witness: in the one-mission demo state, creating `"M1"` again fails. -/
theorem create_mission_spec_witness :
    create_mission demoState1 "M1" "Again" [] = .error (.missionExists "M1") :=
  (create_mission_spec demoState1 "M1" "Again" []).1 (missionAt demoState1 "M1") (by decide)

/-- C2: `start` fails with NotFound on an unknown id, is a pure no-op returning
`false` when the status is not `Planned`, and otherwise returns `true`, sets
`Active`, stamps a non-null `start_time` and repoints `active_mission`. -/
theorem start_mission_spec (mc : MissionControl) (mid now : String) :
    (lookupMission mc.missions mid = none →
      start_mission mc mid now = .error (.missionNotFound mid)) ∧
    (∀ m, lookupMission mc.missions mid = some m →
      (m.status ≠ .planned → start_mission mc mid now = .ok (false, mc)) ∧
      (m.status = .planned →
        ∃ mc', start_mission mc mid now = .ok (true, mc') ∧
          (∃ m', lookupMission mc'.missions mid = some m' ∧
            m'.status = .active ∧ m'.start_time = some now ∧ m'.start_time ≠ none) ∧
          mc'.active_mission = some mid)) := by
  refine ⟨fun h => by simp [start_mission, h], fun m hm => ⟨fun hs => ?_, fun hs => ?_⟩⟩
  · simp [start_mission, hm, hs]
  · refine ⟨⟨setMission mc.missions mid
        ({ m with status := .active, start_time := some now }), some mid⟩, ?_,
      ⟨_, lookupMission_setMission_self _ hm, rfl, rfl, by simp⟩, rfl⟩
    simp [start_mission, hm, hs]

/-- C2 witness: starting the freshly created `"M1"` succeeds and activates it. -/
theorem start_mission_spec_witness :
    ∃ mc', start_mission demoState1 "M1" "t1" = .ok (true, mc') ∧
      (∃ m', lookupMission mc'.missions "M1" = some m' ∧
        m'.status = .active ∧ m'.start_time = some "t1" ∧ m'.start_time ≠ none) ∧
      mc'.active_mission = some "M1" :=
  ((start_mission_spec demoState1 "M1" "t1").2 (missionAt demoState1 "M1")
    (by decide)).2 (by decide)

/-- C3: `abort` and `complete` fail with NotFound on an unknown id, return
`false` (leaving the state unchanged) when the status is not `Active`, and
otherwise set `Aborted` (resp. `Completed`), stamp `end_time`, and clear
`active_mission` exactly when it pointed at this mission. -/
theorem abort_complete_spec (mc : MissionControl) (mid now : String) :
    (lookupMission mc.missions mid = none →
      abort_mission mc mid now = .error (.missionNotFound mid) ∧
      complete_mission mc mid now = .error (.missionNotFound mid)) ∧
    (∀ m, lookupMission mc.missions mid = some m →
      (m.status ≠ .active →
        abort_mission mc mid now = .ok (false, mc) ∧
        complete_mission mc mid now = .ok (false, mc)) ∧
      (m.status = .active →
        (∃ mc', abort_mission mc mid now = .ok (true, mc') ∧
          (∃ m', lookupMission mc'.missions mid = some m' ∧
            m'.status = .aborted ∧ m'.end_time = some now) ∧
          (mc.active_mission = some mid → mc'.active_mission = none) ∧
          (mc.active_mission ≠ some mid → mc'.active_mission = mc.active_mission)) ∧
        (∃ mc', complete_mission mc mid now = .ok (true, mc') ∧
          (∃ m', lookupMission mc'.missions mid = some m' ∧
            m'.status = .completed ∧ m'.end_time = some now) ∧
          (mc.active_mission = some mid → mc'.active_mission = none) ∧
          (mc.active_mission ≠ some mid → mc'.active_mission = mc.active_mission)))) := by
  refine ⟨fun h => ⟨by simp [abort_mission, h], by simp [complete_mission, h]⟩,
    fun m hm => ⟨fun hs => ⟨by simp [abort_mission, hm, hs],
      by simp [complete_mission, hm, hs]⟩, fun hs => ⟨?_, ?_⟩⟩⟩
  · refine ⟨⟨setMission mc.missions mid
        ({ m with status := .aborted, end_time := some now }),
        if mc.active_mission = some mid then none else mc.active_mission⟩, ?_,
      ⟨_, lookupMission_setMission_self _ hm, rfl, rfl⟩,
      fun ha => by simp [ha], fun ha => by simp [ha]⟩
    simp [abort_mission, hm, hs]
  · refine ⟨⟨setMission mc.missions mid
        ({ m with status := .completed, end_time := some now }),
        if mc.active_mission = some mid then none else mc.active_mission⟩, ?_,
      ⟨_, lookupMission_setMission_self _ hm, rfl, rfl⟩,
      fun ha => by simp [ha], fun ha => by simp [ha]⟩
    simp [complete_mission, hm, hs]

/-- C3 witness: aborting and completing the active `"M1"` both succeed and
clear the pointer, which did reference `"M1"`. -/
theorem abort_complete_spec_witness :
    (∃ mc', abort_mission demoState2 "M1" "t9" = .ok (true, mc') ∧
      (∃ m', lookupMission mc'.missions "M1" = some m' ∧
        m'.status = .aborted ∧ m'.end_time = some "t9") ∧
      (demoState2.active_mission = some "M1" → mc'.active_mission = none) ∧
      (demoState2.active_mission ≠ some "M1" →
        mc'.active_mission = demoState2.active_mission)) ∧
    (∃ mc', complete_mission demoState2 "M1" "t9" = .ok (true, mc') ∧
      (∃ m', lookupMission mc'.missions "M1" = some m' ∧
        m'.status = .completed ∧ m'.end_time = some "t9") ∧
      (demoState2.active_mission = some "M1" → mc'.active_mission = none) ∧
      (demoState2.active_mission ≠ some "M1" →
        mc'.active_mission = demoState2.active_mission)) :=
  ((abort_complete_spec demoState2 "M1" "t9").2 (missionAt demoState2 "M1")
    (by decide)).2 (by decide)

/-- C4: `send_command` fails with NotFound on an unknown id, raises
InvalidState whenever the mission is not `Active`, and on an `Active` mission
appends exactly one new `Pending` command and returns its id. -/
theorem send_command_spec (mc : MissionControl) (mid ctype : String)
    (params : List (String × String)) (now : String) :
    (lookupMission mc.missions mid = none →
      send_command mc mid ctype params now = .error (.missionNotFound mid)) ∧
    (∀ m, lookupMission mc.missions mid = some m →
      (m.status ≠ .active →
        send_command mc mid ctype params now = .error (.inactiveMission mid)) ∧
      (m.status = .active →
        ∃ cid mc', send_command mc mid ctype params now = .ok (cid, mc') ∧
          ∃ m', lookupMission mc'.missions mid = some m' ∧
            ∃ newc, m'.commands = m.commands ++ [newc] ∧
              newc.status = .pending ∧ newc.id = cid)) := by
  refine ⟨fun h => by simp [send_command, h], fun m hm => ⟨fun hs => ?_, fun hs => ?_⟩⟩
  · simp [send_command, hm, hs]
  · refine ⟨cmdIdFor (m.commands.length + 1),
      ⟨setMission mc.missions mid
        ({ m with commands := m.commands ++
          [{ id := cmdIdFor (m.commands.length + 1), type := ctype,
             parameters := params, status := .pending, timestamp := now,
             result := none }] }), mc.active_mission⟩, ?_,
      _, lookupMission_setMission_self _ hm, _, rfl, rfl, rfl⟩
    simp [send_command, hm, hs]

/-- C4 witness: sending to the still-`Planned` `"M1"` raises InvalidState. -/
theorem send_command_spec_witness :
    send_command demoState1 "M1" "ignition" [] "t2" = .error (.inactiveMission "M1") :=
  ((send_command_spec demoState1 "M1" "ignition" [] "t2").2 (missionAt demoState1 "M1")
    (by decide)).1 (by decide)

/-- C7: `add_telemetry` fails with NotFound only on an unknown id; for every
stored mission, of any status, it appends exactly one record at the end of the
telemetry list, leaving the earlier records unchanged. -/
theorem add_telemetry_spec (mc : MissionControl) (mid : String)
    (alt vel fuel : Int) (health now : String) :
    (lookupMission mc.missions mid = none →
      add_telemetry mc mid alt vel fuel health now = .error (.missionNotFound mid)) ∧
    (∀ m, lookupMission mc.missions mid = some m →
      ∃ mc', add_telemetry mc mid alt vel fuel health now = .ok mc' ∧
        ∃ m', lookupMission mc'.missions mid = some m' ∧
          m'.telemetry = m.telemetry ++
            [{ timestamp := now, altitude := alt, velocity := vel,
               fuel_level := fuel, system_health := health }]) := by
  refine ⟨fun h => by simp [add_telemetry, h], fun m hm => ?_⟩
  refine ⟨⟨setMission mc.missions mid
      ({ m with telemetry := m.telemetry ++
        [{ timestamp := now, altitude := alt, velocity := vel,
           fuel_level := fuel, system_health := health }] }), mc.active_mission⟩, ?_,
    _, lookupMission_setMission_self _ hm, rfl⟩
  simp [add_telemetry, hm]

/-- C7 witness: telemetry can be appended to `"M1"` while it is still
`Planned` (no status check is performed). -/
theorem add_telemetry_spec_witness :
    ∃ mc', add_telemetry demoState1 "M1" 100 10 90 "nominal" "t3" = .ok mc' ∧
      ∃ m', lookupMission mc'.missions "M1" = some m' ∧
        m'.telemetry = (missionAt demoState1 "M1").telemetry ++
          [{ timestamp := "t3", altitude := 100, velocity := 10,
             fuel_level := 90, system_health := "nominal" }] :=
  (add_telemetry_spec demoState1 "M1" 100 10 90 "nominal" "t3").2
    (missionAt demoState1 "M1") (by decide)

/-- C1: `execute_command` fails NotFound on an unknown mission or command id,
returns `false` without mutating anything if the command is not `Pending`, and
otherwise resolves the command by its type — `"ignition"` completes with a
result containing `"ignited"`, `"adjust_course"` and `"collect_sample"`
complete with a formatted result, any other type fails with a result naming
the unknown type — returning `true` iff the resolved status is `Completed`. -/
theorem execute_command_spec (mc : MissionControl) (mid cid : String) :
    (lookupMission mc.missions mid = none →
      execute_command mc mid cid = .error (.missionNotFound mid)) ∧
    (∀ m, lookupMission mc.missions mid = some m →
      (findCommand m.commands cid = none →
        execute_command mc mid cid = .error (.commandNotFound cid)) ∧
      (∀ c, findCommand m.commands cid = some c →
        (c.status ≠ .pending → execute_command mc mid cid = .ok (false, mc)) ∧
        (c.status = .pending →
          ∃ b mc', execute_command mc mid cid = .ok (b, mc') ∧
            (b = true ↔ (resolveCommand c).status = .completed) ∧
            (∃ m', lookupMission mc'.missions mid = some m' ∧
              findCommand m'.commands cid = some (resolveCommand c)) ∧
            ((resolveCommand c).status = .completed ∨
              (resolveCommand c).status = .failed) ∧
            (c.type = "ignition" → (resolveCommand c).status = .completed ∧
              ∃ p q, (resolveCommand c).result = some (p ++ "ignited" ++ q)) ∧
            (c.type = "adjust_course" → (resolveCommand c).status = .completed ∧
              (resolveCommand c).result =
                some ("Course adjusted to " ++ paramGet c.parameters "heading" "unknown")) ∧
            (c.type = "collect_sample" → (resolveCommand c).status = .completed ∧
              (resolveCommand c).result =
                some ("Sample collected at " ++ paramGet c.parameters "location" "unknown")) ∧
            (c.type ≠ "ignition" → c.type ≠ "adjust_course" → c.type ≠ "collect_sample" →
              (resolveCommand c).status = .failed ∧
              ∃ p, (resolveCommand c).result = some (p ++ c.type))))) := by
  refine ⟨fun h => by simp [execute_command, h],
    fun m hm => ⟨fun hc => ?_, fun c hc => ⟨fun hp => ?_, fun hp => ?_⟩⟩⟩
  · simp [execute_command, hm, hc]
  · simp [execute_command, hm, hc, hp]
  · have hid : (resolveCommand c).id = cid := by
      rw [resolveCommand_id]; exact findCommand_id hc
    refine ⟨decide ((resolveCommand c).status = .completed),
      ⟨setMission mc.missions mid
          ({ m with commands := updateCommand m.commands cid (resolveCommand c) }),
        mc.active_mission⟩, ?_, by simp,
      ⟨_, lookupMission_setMission_self _ hm, findCommand_updateCommand_self _ hc hid⟩,
      resolveCommand_status c, fun ht => ?_, fun ht => ?_, fun ht => ?_,
      fun h1 h2 h3 => ?_⟩
    · simp [execute_command, hm, hc, hp]
    · unfold resolveCommand
      rw [if_pos ht]
      refine ⟨rfl, "Engine ", " successfully", ?_⟩
      have hstr : ("Engine " ++ "ignited" ++ " successfully" : String)
          = "Engine ignited successfully" := by decide
      rw [hstr]
    · unfold resolveCommand
      rw [if_neg (by rw [ht]; decide), if_pos ht]
      exact ⟨rfl, rfl⟩
    · unfold resolveCommand
      rw [if_neg (by rw [ht]; decide), if_neg (by rw [ht]; decide), if_pos ht]
      exact ⟨rfl, rfl⟩
    · unfold resolveCommand
      rw [if_neg h1, if_neg h2, if_neg h3]
      exact ⟨rfl, "Unknown command type: ", rfl⟩

/-- C1 witness: executing the pending ignition command of the demo run. -/
theorem execute_command_spec_witness :
    ∃ b mc', execute_command demoState3 "M1" "cmd_0001" = .ok (b, mc') ∧
      (b = true ↔ (resolveCommand demoCmd3).status = .completed) ∧
      (∃ m', lookupMission mc'.missions "M1" = some m' ∧
        findCommand m'.commands "cmd_0001" = some (resolveCommand demoCmd3)) ∧
      ((resolveCommand demoCmd3).status = .completed ∨
        (resolveCommand demoCmd3).status = .failed) ∧
      (demoCmd3.type = "ignition" → (resolveCommand demoCmd3).status = .completed ∧
        ∃ p q, (resolveCommand demoCmd3).result = some (p ++ "ignited" ++ q)) ∧
      (demoCmd3.type = "adjust_course" → (resolveCommand demoCmd3).status = .completed ∧
        (resolveCommand demoCmd3).result =
          some ("Course adjusted to " ++ paramGet demoCmd3.parameters "heading" "unknown")) ∧
      (demoCmd3.type = "collect_sample" → (resolveCommand demoCmd3).status = .completed ∧
        (resolveCommand demoCmd3).result =
          some ("Sample collected at " ++ paramGet demoCmd3.parameters "location" "unknown")) ∧
      (demoCmd3.type ≠ "ignition" → demoCmd3.type ≠ "adjust_course" →
        demoCmd3.type ≠ "collect_sample" →
        (resolveCommand demoCmd3).status = .failed ∧
        ∃ p, (resolveCommand demoCmd3).result = some (p ++ demoCmd3.type)) :=
  (((execute_command_spec demoState3 "M1" "cmd_0001").2 demoMission3 (by decide)).2
    demoCmd3 (by decide)).2 (by decide)

/-- C8: `get_mission_status` fails NotFound on an unknown id and otherwise
reports the counts of active (`Pending` or `Executing`), completed and failed
commands and the most recent telemetry (none when empty); on the end-to-end
demo run it reports one completed command, zero failed and altitude 100. -/
theorem get_mission_status_spec (mc : MissionControl) (mid : String) :
    (lookupMission mc.missions mid = none →
      get_mission_status mc mid = .error (.missionNotFound mid)) ∧
    (∀ m, lookupMission mc.missions mid = some m →
      ∃ r, get_mission_status mc mid = .ok r ∧ r.mission = m ∧
        r.active_commands = (m.commands.filter (fun c =>
          decide (c.status = .pending) || decide (c.status = .executing))).length ∧
        r.completed_commands =
          (m.commands.filter (fun c => decide (c.status = .completed))).length ∧
        r.failed_commands =
          (m.commands.filter (fun c => decide (c.status = .failed))).length ∧
        r.latest_telemetry = m.telemetry.getLast?) ∧
    (∃ r, runDemo = .ok r ∧ r.completed_commands = 1 ∧ r.failed_commands = 0 ∧
      ∃ t, r.latest_telemetry = some t ∧ t.altitude = 100) := by
  refine ⟨fun h => by simp [get_mission_status, h], fun m hm => ?_, ?_⟩
  · refine ⟨{ mission := m,
              active_commands := (m.commands.filter (fun c =>
                decide (c.status = .pending) || decide (c.status = .executing))).length,
              completed_commands :=
                (m.commands.filter (fun c => decide (c.status = .completed))).length,
              failed_commands :=
                (m.commands.filter (fun c => decide (c.status = .failed))).length,
              latest_telemetry := m.telemetry.getLast? },
      by simp [get_mission_status, hm], rfl, rfl, rfl, rfl, rfl⟩
  · exact ⟨demoReport, rfl, rfl, rfl, demoTelemetryRec, rfl, rfl⟩

/-- C8 witness: the status query on an empty registry fails with NotFound. -/
theorem get_mission_status_spec_witness :
    get_mission_status initMC "M1" = .error (.missionNotFound "M1") :=
  (get_mission_status_spec initMC "M1").1 rfl

/-! Reachability invariant -/

theorem registryInv_init : RegistryInv initMC := by
  refine ⟨by simp [initMC], ?_⟩
  intro p hp
  simp [initMC] at hp

theorem step_preserves_registryInv {mc mc' : MissionControl}
    (hinv : RegistryInv mc) (hs : Step mc mc') : RegistryInv mc' := by
  obtain ⟨hnd, hmiss⟩ := hinv
  cases hs with
  | create i n o m mc2 h =>
    cases hL : lookupMission mc.missions i with
    | some v => simp [create_mission, hL] at h
    | none =>
      simp only [create_mission, hL] at h
      rw [Except.ok.injEq, Prod.mk.injEq] at h
      rw [← h.2]
      refine ⟨?_, ?_⟩
      · rw [List.map_append, List.nodup_append]
        refine ⟨hnd, by simp, ?_⟩
        intro a ha hb
        simp at hb
        rw [hb] at ha
        exact lookupMission_none_not_mem hL ha
      · intro p hp
        rcases List.mem_append.mp hp with h1 | h1
        · exact hmiss p h1
        · simp only [List.mem_singleton] at h1
          rw [h1]
          exact ⟨rfl, by simp⟩
  | start i now b mc2 h =>
    cases hL : lookupMission mc.missions i with
    | none => simp [start_mission, hL] at h
    | some mission =>
      simp only [start_mission, hL] at h
      split at h
      · rw [Except.ok.injEq, Prod.mk.injEq] at h
        rw [← h.2]
        exact ⟨hnd, hmiss⟩
      · rw [Except.ok.injEq, Prod.mk.injEq] at h
        rw [← h.2]
        refine ⟨by simpa [setMission_map_fst] using hnd, ?_⟩
        intro p hp
        rcases mem_setMission hp with h1 | h1
        · exact hmiss p h1
        · rw [h1]
          exact hmiss (i, mission) (lookupMission_mem hL)
  | abort i now b mc2 h =>
    cases hL : lookupMission mc.missions i with
    | none => simp [abort_mission, hL] at h
    | some mission =>
      simp only [abort_mission, hL] at h
      split at h
      · rw [Except.ok.injEq, Prod.mk.injEq] at h
        rw [← h.2]
        exact ⟨hnd, hmiss⟩
      · rw [Except.ok.injEq, Prod.mk.injEq] at h
        rw [← h.2]
        refine ⟨by simpa [setMission_map_fst] using hnd, ?_⟩
        intro p hp
        rcases mem_setMission hp with h1 | h1
        · exact hmiss p h1
        · rw [h1]
          exact hmiss (i, mission) (lookupMission_mem hL)
  | complete i now b mc2 h =>
    cases hL : lookupMission mc.missions i with
    | none => simp [complete_mission, hL] at h
    | some mission =>
      simp only [complete_mission, hL] at h
      split at h
      · rw [Except.ok.injEq, Prod.mk.injEq] at h
        rw [← h.2]
        exact ⟨hnd, hmiss⟩
      · rw [Except.ok.injEq, Prod.mk.injEq] at h
        rw [← h.2]
        refine ⟨by simpa [setMission_map_fst] using hnd, ?_⟩
        intro p hp
        rcases mem_setMission hp with h1 | h1
        · exact hmiss p h1
        · rw [h1]
          exact hmiss (i, mission) (lookupMission_mem hL)
  | send i t ps now cid mc2 h =>
    cases hL : lookupMission mc.missions i with
    | none => simp [send_command, hL] at h
    | some mission =>
      simp only [send_command, hL] at h
      split at h
      · simp at h
      · rw [Except.ok.injEq, Prod.mk.injEq] at h
        rw [← h.2]
        refine ⟨by simpa [setMission_map_fst] using hnd, ?_⟩
        intro p hp
        rcases mem_setMission hp with h1 | h1
        · exact hmiss p h1
        · rw [h1]
          have hm := hmiss (i, mission) (lookupMission_mem hL)
          refine ⟨?_, ?_⟩
          · show (mission.commands ++ _).map Command.id = _
            rw [List.map_append, hm.1]
            simp [List.range_succ]
          · intro c hc
            rcases List.mem_append.mp hc with h2 | h2
            · exact hm.2 c h2
            · simp only [List.mem_singleton] at h2
              rw [h2]
              simp
  | execute i cid b mc2 h =>
    cases hL : lookupMission mc.missions i with
    | none => simp [execute_command, hL] at h
    | some mission =>
      cases hF : findCommand mission.commands cid with
      | none => simp [execute_command, hL, hF] at h
      | some command =>
        simp only [execute_command, hL, hF] at h
        split at h
        · rw [Except.ok.injEq, Prod.mk.injEq] at h
          rw [← h.2]
          exact ⟨hnd, hmiss⟩
        · rw [Except.ok.injEq, Prod.mk.injEq] at h
          rw [← h.2]
          refine ⟨by simpa [setMission_map_fst] using hnd, ?_⟩
          intro p hp
          rcases mem_setMission hp with h1 | h1
          · exact hmiss p h1
          · rw [h1]
            have hm := hmiss (i, mission) (lookupMission_mem hL)
            have hid : (resolveCommand command).id = cid := by
              rw [resolveCommand_id]; exact findCommand_id hF
            refine ⟨?_, ?_⟩
            · show (updateCommand mission.commands cid (resolveCommand command)).map
                Command.id = _
              have hlen : (updateCommand mission.commands cid
                  (resolveCommand command)).length = mission.commands.length := by
                rw [← List.length_map (updateCommand mission.commands cid
                    (resolveCommand command)) Command.id,
                  updateCommand_map_id hid, List.length_map]
              rw [updateCommand_map_id hid, hm.1, hlen]
            · intro c hc
              rcases mem_updateCommand hc with h2 | h2
              · exact hm.2 c h2
              · rw [h2]
                rcases resolveCommand_status command with h3 | h3 <;> simp [h3]
  | telemetry i alt vel fuel health now mc2 h =>
    cases hL : lookupMission mc.missions i with
    | none => simp [add_telemetry, hL] at h
    | some mission =>
      simp only [add_telemetry, hL] at h
      rw [Except.ok.injEq] at h
      rw [← h]
      refine ⟨by simpa [setMission_map_fst] using hnd, ?_⟩
      intro p hp
      rcases mem_setMission hp with h1 | h1
      · exact hmiss p h1
      · rw [h1]
        exact hmiss (i, mission) (lookupMission_mem hL)

theorem reachable_registryInv {mc : MissionControl} (h : Reachable mc) : RegistryInv mc := by
  induction h with
  | init => exact registryInv_init
  | step mc mc' hr hs ih => exact step_preserves_registryInv ih hs

theorem demoReachable4 : Reachable demoState4 :=
  Reachable.step _ _
    (Reachable.step _ _
      (Reachable.step _ _
        (Reachable.step _ _ Reachable.init
          (Step.create initMC "M1" "Mission One" [] (missionAt demoState1 "M1")
            demoState1 rfl))
        (Step.start demoState1 "M1" "t1" true demoState2 rfl))
      (Step.send demoState2 "M1" "ignition" [] "t2" "cmd_0001" demoState3 rfl))
    (Step.execute demoState3 "M1" "cmd_0001" true demoState4 rfl)

theorem dualReachable4 : Reachable dualState4 :=
  Reachable.step _ _
    (Reachable.step _ _
      (Reachable.step _ _
        (Reachable.step _ _ Reachable.init
          (Step.create initMC "A" "Alpha" [] (missionAt dualState1 "A") dualState1 rfl))
        (Step.start dualState1 "A" "tA" true dualState2 rfl))
      (Step.create dualState2 "B" "Beta" [] (missionAt dualState3 "B") dualState3 rfl))
    (Step.start dualState3 "B" "tB" true dualState4 rfl)

/-- C5: in every reachable state, every mission's command ids are exactly
`cmd_0001, cmd_0002, …` in send order, pairwise distinct and numerically
increasing, and a further successful `send_command` returns the zero-padded
id for position `len + 1`. -/
theorem command_ids_spec (mc : MissionControl) (h : Reachable mc) :
    ∀ p ∈ mc.missions,
      p.2.commands.map Command.id
        = (List.range p.2.commands.length).map (fun i => cmdIdFor (i + 1)) ∧
      (p.2.commands.map Command.id).Nodup ∧
      (p.2.commands.map (fun c => cmdNum c.id)).Pairwise (· < ·) ∧
      (∀ t ps now cid mc', send_command mc p.1 t ps now = .ok (cid, mc') →
        cid = cmdIdFor (p.2.commands.length + 1)) := by
  obtain ⟨hnd, hmiss⟩ := reachable_registryInv h
  intro p hp
  have hm := hmiss p hp
  refine ⟨hm.1, ?_, ?_, ?_⟩
  · rw [hm.1]
    refine List.Nodup.map ?_ (List.nodup_range _)
    intro a b hab
    have := cmdIdFor_injective hab
    omega
  · have hcomp : p.2.commands.map (fun c => cmdNum c.id)
        = (p.2.commands.map Command.id).map cmdNum := by
      rw [List.map_map]; rfl
    rw [hcomp, hm.1, List.map_map]
    have hfun : (cmdNum ∘ fun i => cmdIdFor (i + 1)) = fun i => i + 1 := by
      funext i
      simp [Function.comp, cmdNum_cmdIdFor]
    rw [hfun, List.pairwise_map]
    exact (List.pairwise_lt_range _).imp (by omega)
  · intro t ps now cid mc' hsend
    have hlk : lookupMission mc.missions p.1 = some p.2 :=
      lookupMission_of_mem_nodup (by rw [Prod.mk.eta]; exact hp) hnd
    simp only [send_command, hlk] at hsend
    split at hsend
    · simp at hsend
    · rw [Except.ok.injEq, Prod.mk.injEq] at hsend
      exact hsend.1.symm

/-- C5 witness: in the demo state reached by one send, the single command id
is `cmd_0001` and the next send would be numbered 2. -/
theorem command_ids_spec_witness :
    demoMission4.commands.map Command.id
      = (List.range demoMission4.commands.length).map (fun i => cmdIdFor (i + 1)) ∧
    (demoMission4.commands.map Command.id).Nodup ∧
    (demoMission4.commands.map (fun c => cmdNum c.id)).Pairwise (· < ·) ∧
    (∀ t ps now cid mc', send_command demoState4 "M1" t ps now = .ok (cid, mc') →
      cid = cmdIdFor (demoMission4.commands.length + 1)) :=
  command_ids_spec demoState4 demoReachable4 ("M1", demoMission4) (by decide)

/-- C9: in every reachable state no stored command is `Executing`, and after
any further public operation the same holds: the `Executing` status is only
transient inside a single `execute_command` call. -/
theorem no_executing_spec (mc : MissionControl) (h : Reachable mc) :
    (∀ p ∈ mc.missions, ∀ c ∈ p.2.commands, c.status ≠ CommandStatus.executing) ∧
    (∀ mc', Step mc mc' → ∀ p ∈ mc'.missions, ∀ c ∈ p.2.commands,
      c.status ≠ CommandStatus.executing) :=
  ⟨fun p hp c hc => ((reachable_registryInv h).2 p hp).2 c hc,
   fun _ hs p hp c hc =>
     ((step_preserves_registryInv (reachable_registryInv h) hs).2 p hp).2 c hc⟩

/-- C9 witness: the executed ignition command of the demo run is not
`Executing` once `execute_command` has returned. -/
theorem no_executing_spec_witness :
    demoCmd4.status ≠ CommandStatus.executing :=
  (no_executing_spec demoState4 demoReachable4).1 ("M1", demoMission4) (by decide)
    demoCmd4 (by decide)

/-- C10: the registry does not enforce a single active mission — starting
`"B"` while `"A"` is active yields a reachable state with both missions
`Active` and the pointer naming only `"B"`; aborting or completing `"A"`
then succeeds but leaves the pointer pointing at `"B"`. -/
theorem dual_active_spec :
    Reachable dualState4 ∧
    (missionAt dualState3 "A").status = .active ∧
    dualState3.active_mission = some "A" ∧
    start_mission dualState3 "B" "tB" = .ok (true, dualState4) ∧
    (missionAt dualState4 "A").status = .active ∧
    (missionAt dualState4 "B").status = .active ∧
    dualState4.active_mission = some "B" ∧
    abort_mission dualState4 "A" "tC" = .ok (true, dualAborted) ∧
    dualAborted.active_mission = some "B" ∧
    (missionAt dualAborted "A").status = .aborted ∧
    complete_mission dualState4 "A" "tC" = .ok (true, dualCompleted) ∧
    dualCompleted.active_mission = some "B" ∧
    (missionAt dualCompleted "A").status = .completed :=
  ⟨dualReachable4, rfl, rfl, rfl, rfl, rfl, rfl, rfl, rfl, rfl, rfl, rfl, rfl⟩

end MissionControlSim
